import Mathlib

/-!
Verification of the LintX backend (src/backend/main.py) against its
specification.  The development shallowly embeds the sandboxed execution
pipeline (`run_in_sandbox`), the language registry (`LANG_CONFIG`) and the
JSON-fallback post-processing of the `feedback` and `annotate` endpoints.

Modelling conventions:
* The staging filesystem is an association list from paths to file contents;
  `fsWrite`, `fsRemove`, `fsExists` mirror `open(...).write`, `os.remove`
  and `os.path.exists`.
* Each `subprocess.run` invocation of the docker sandbox is an external
  event; its outcome (completion with exit code and captured streams,
  `subprocess.TimeoutExpired`, or any other exception) is supplied by an
  `ExecEnv` oracle.  Likewise the outcome of the staged-file write.
* `uuid.uuid4().hex` is supplied as the `uuid` argument, `os.getcwd()` as
  the `cwd` argument.
* A compiler invocation that exits 0 materialises its `-o` targets (the
  only artifacts the recipes can produce) inside the bind-mounted staging
  root; the container path `/home/runner/` corresponds to the host path
  `sandbox/`.
* Exceptions escaping `run_in_sandbox` are `Except.error ()`; normal
  returns are `Except.ok (output, error)`.
* The list of docker invocations actually performed is returned as a
  trace, so that claims such as "the run step is never invoked" are
  statable.
-/

namespace LintX

/-- One entry of `LANG_CONFIG`: extension, optional compile command and run
command, the latter two parameterized by the staged file's basename exactly
as the Python lambdas are. -/
structure LangCfg where
  ext : String
  compiler_cmd : Option (String → List String) := none
  runCmd : String → List String

/-- The language registry of src/backend/main.py, lines 25-39. -/
def LANG_CONFIG (language : String) : Option LangCfg :=
  match language with
  | "python" => some
      { ext := ".py"
        runCmd := fun f => ["python3", "/home/runner/" ++ f] }
  | "javascript" => some
      { ext := ".js"
        runCmd := fun f => ["node", "/home/runner/" ++ f] }
  | "cpp" => some
      { ext := ".cpp"
        compiler_cmd := some fun f =>
          ["g++", "/home/runner/" ++ f, "-o", "/home/runner/a.out"]
        runCmd := fun _ => ["/home/runner/a.out"] }
  | _ => none

/-- Staging filesystem: list of (path, contents) pairs; later writes shadow
earlier ones. -/
abbrev FS := List (String × String)

def fsWrite (fs : FS) (p c : String) : FS := (p, c) :: fs

def fsRemove (fs : FS) (p : String) : FS := fs.filter (fun e => e.1 != p)

def fsExists (fs : FS) (p : String) : Bool := fs.any (fun e => e.1 == p)

/-- The guarded removal in the finally block:
`if os.path.exists(filename): os.remove(filename)`. -/
def removeIfExists (fs : FS) (p : String) : FS :=
  if fsExists fs p then fsRemove fs p else fs

def writeAll (fs : FS) (ps : List String) : FS :=
  ps.foldl (fun a p => fsWrite a p "") fs

/-- Outcome of one `subprocess.run` of the docker sandbox. -/
inductive ProcResult where
  | completed (returncode : Int) (stdout stderr : String)
  | timedOut
  | raised
deriving DecidableEq

/-- Outcome of `with open(filename, "w") as f: f.write(code)`:
success, failure of the open itself (no file created), or failure of the
write after the file was created (the contents written so far remain). -/
inductive WriteOutcome where
  | ok
  | openFails
  | writeFails (written : String)
deriving DecidableEq

/-- Oracle for the external events of one request. -/
structure ExecEnv where
  writeOutcome : WriteOutcome
  compileOutcome : ProcResult
  runOutcome : ProcResult

/-- What one call of `run_in_sandbox` leaves behind: the returned (or
raised) result, the final staging filesystem, and the docker invocations
that were performed, in order. -/
structure SandboxOutcome where
  result : Except Unit (String × String)
  fs : FS
  invocations : List (List String)

/-- The characters after the last slash of a character list. -/
def afterLastSlash (l : List Char) : List Char :=
  l.foldl (fun acc c => if c = '/' then [] else acc ++ [c]) []

/-- `os.path.basename` restricted to slash-separated paths: everything
after the last slash. -/
def basename (p : String) : String := String.mk (afterLastSlash p.data)

/-- The docker argument vector built at lines 58-61 and 69-72. -/
def dockerArgs (cwd : String) (cmd : List String) : List String :=
  ["docker", "run", "--rm", "-v", cwd ++ "/sandbox:/home/runner",
   "lintx-image"] ++ cmd

/-- The output targets a compile command names with -o flags; for the g++
recipe this is the binary it produces. -/
def outputPaths : List String → List String
  | "-o" :: p :: rest => p :: outputPaths rest
  | _ :: rest => outputPaths rest
  | [] => []

/-- Translate an in-container path under the bind mount
`sandbox -> /home/runner` back to the host path. -/
def containerToHost (p : String) : Option String :=
  if ("/home/runner/").data.isPrefixOf p.data then
    some ("sandbox/" ++ String.mk (p.data.drop ("/home/runner/").data.length))
  else none

/-- Host-side artifact paths produced by a compile command. -/
def hostArtifacts (cmd : List String) : List String :=
  (outputPaths cmd).filterMap containerToHost

/-- The run step (lines 69-79) followed by the finally block (lines 84-86):
invoke `runCmd`, capture both streams whatever the exit code, map
`TimeoutExpired` to the sentinel, let any other exception escape, and
remove the staged file on every path. -/
def runPhase (cwd : String) (cfg : LangCfg) (filename : String)
    (env : ExecEnv) (fs : FS) (tr : List (List String)) : SandboxOutcome :=
  let rargv := dockerArgs cwd (cfg.runCmd (basename filename))
  match env.runOutcome with
  | .completed _ out err =>
      ⟨.ok (out, err), removeIfExists fs filename, tr ++ [rargv]⟩
  | .timedOut =>
      ⟨.ok ("", "Execution timed out"), removeIfExists fs filename,
        tr ++ [rargv]⟩
  | .raised => ⟨.error (), removeIfExists fs filename, tr ++ [rargv]⟩

/-- `run_in_sandbox` of src/backend/main.py, lines 47-88.  The staged-file
write at lines 52-54 happens before the try block, so its exceptions
propagate without entering the finally cleanup.  A compile step that exits
non-zero short-circuits with the captured compiler stderr; a compile step
that exits 0 materialises its -o artifacts in the staging root. -/
def run_in_sandbox (cwd code language uuid : String) (env : ExecEnv)
    (fs0 : FS) : SandboxOutcome :=
  match LANG_CONFIG language with
  | none => ⟨.ok ("", "Unsupported language: " ++ language), fs0, []⟩
  | some cfg =>
    let filename := "sandbox/" ++ uuid ++ cfg.ext
    match env.writeOutcome with
    | .openFails => ⟨.error (), fs0, []⟩
    | .writeFails w => ⟨.error (), fsWrite fs0 filename w, []⟩
    | .ok =>
      let fs1 := fsWrite fs0 filename code
      match cfg.compiler_cmd with
      | some cc =>
        let ccmd := cc (basename filename)
        let cargv := dockerArgs cwd ccmd
        match env.compileOutcome with
        | .timedOut =>
            ⟨.ok ("", "Execution timed out"), removeIfExists fs1 filename,
              [cargv]⟩
        | .raised => ⟨.error (), removeIfExists fs1 filename, [cargv]⟩
        | .completed rc _ cerr =>
          if rc ≠ 0 then
            ⟨.ok ("", cerr), removeIfExists fs1 filename, [cargv]⟩
          else
            runPhase cwd cfg filename env
              (writeAll fs1 (hostArtifacts ccmd)) [cargv]
      | none => runPhase cwd cfg filename env fs1 []

/-- The set of staging-root paths a request addresses: its staged source
file plus the artifact targets of its compile command. -/
def requestPaths (language uuid : String) : List String :=
  match LANG_CONFIG language with
  | none => []
  | some cfg =>
    let filename := "sandbox/" ++ uuid ++ cfg.ext
    filename ::
      (match cfg.compiler_cmd with
       | some cc => hostArtifacts (cc (basename filename))
       | none => [])

/-- JSON values, as produced by a successful `json.loads`. -/
inductive Json where
  | null
  | bool (b : Bool)
  | num (n : Int)
  | str (s : String)
  | arr (xs : List Json)
  | obj (fields : List (String × Json))

mutual

/-- Whether the string `s` occurs as a string leaf of a JSON value. -/
def mentions (s : String) : Json → Bool
  | Json.str t => t == s
  | Json.arr xs => mentionsL s xs
  | Json.obj fs => mentionsF s fs
  | _ => false

def mentionsL (s : String) : List Json → Bool
  | [] => false
  | j :: rest => mentions s j || mentionsL s rest

def mentionsF (s : String) : List (String × Json) → Bool
  | [] => false
  | e :: rest => mentions s e.2 || mentionsF s rest

end

/-- Lines 142-147 of src/backend/main.py: the feedback endpoint parses the
downstream response with `json.loads` and falls back to
`{"analysis": response, "improved_code": ""}` when parsing raises.
`json.loads` is Python library code, modelled by its result: `some v` when
it succeeds with value `v`, `none` when it raises. -/
def feedback_postprocess (response : String) (parsed : Option Json) :
    Json :=
  match parsed with
  | some v => v
  | none => Json.obj [("analysis", Json.str response),
                      ("improved_code", Json.str "")]

/-- Lines 177-182 of src/backend/main.py: the annotate endpoint parses the
downstream response with `json.loads` and falls back to
`{"issues": [], "improved_code": data.code}` when parsing raises. -/
def annotate_postprocess (code response : String) (parsed : Option Json) :
    Json :=
  match parsed with
  | some v => v
  | none => Json.obj [("issues", Json.arr []),
                      ("improved_code", Json.str code)]

/-! ### Filesystem lemmas -/

theorem fsExists_fsRemove_self (fs : FS) (p : String) :
    fsExists (fsRemove fs p) p = false := by
  simp [fsExists, fsRemove, List.any_filter, bne]

theorem fsExists_removeIfExists_self (fs : FS) (p : String) :
    fsExists (removeIfExists fs p) p = false := by
  unfold removeIfExists
  by_cases h : fsExists fs p = true
  · simp [h, fsExists_fsRemove_self]
  · simp only [Bool.not_eq_true] at h
    simp [h]

theorem fsExists_fsRemove_ne (fs : FS) (p q : String) (h : q ≠ p) :
    fsExists (fsRemove fs p) q = fsExists fs q := by
  simp only [fsExists, fsRemove, List.any_filter]
  have hpt : ∀ a : String × String,
      ((a.1 != p) && (a.1 == q)) = (a.1 == q) := by
    intro a
    by_cases ha : a.1 = q
    · subst ha
      simp [bne, beq_eq_false_iff_ne.mpr h]
    · simp [beq_eq_false_iff_ne.mpr ha]
  rw [funext hpt]

theorem fsExists_removeIfExists_ne (fs : FS) (p q : String) (h : q ≠ p) :
    fsExists (removeIfExists fs p) q = fsExists fs q := by
  unfold removeIfExists
  by_cases hp : fsExists fs p = true
  · simp [hp, fsExists_fsRemove_ne fs p q h]
  · simp only [Bool.not_eq_true] at hp
    simp [hp]

theorem fsExists_fsWrite_self (fs : FS) (p c : String) :
    fsExists (fsWrite fs p c) p = true := by
  simp [fsWrite, fsExists, List.any_cons]

/-! ### String path lemmas -/

/-- The last character of a string, used to separate paths whose
extensions differ. -/
def lastChar (s : String) : Option Char := s.data.getLast?

theorem lastChar_append (s t : String) (h : t.data ≠ []) :
    lastChar (s ++ t) = lastChar t := by
  simp only [lastChar, String.data_append]
  exact List.getLast?_append_of_ne_nil s.data h

theorem append_right_cancel_string (s t u : String)
    (h : s ++ u = t ++ u) : s = t := by
  apply String.ext
  have h2 : s.data ++ u.data = t.data ++ u.data := by
    simpa [String.data_append] using congrArg String.data h
  exact List.append_cancel_right h2

theorem staged_ne_of_uuid_ne (u1 u2 e1 e2 : String)
    (he1 : e1 = ".py" ∨ e1 = ".js" ∨ e1 = ".cpp")
    (he2 : e2 = ".py" ∨ e2 = ".js" ∨ e2 = ".cpp")
    (hu : u1 ≠ u2) :
    "sandbox/" ++ u1 ++ e1 ≠ "sandbox/" ++ u2 ++ e2 := by
  intro h
  by_cases he : e1 = e2
  · subst he
    have h1 : ("sandbox/" ++ u1) ++ e1 = ("sandbox/" ++ u2) ++ e1 := by
      simpa [String.append_assoc] using h
    have h2 : "sandbox/" ++ u1 = "sandbox/" ++ u2 :=
      append_right_cancel_string _ _ _ h1
    have h3 : ("sandbox/").data ++ u1.data = ("sandbox/").data ++ u2.data := by
      simpa [String.data_append] using congrArg String.data h2
    exact hu (String.ext (List.append_cancel_left h3))
  · rcases he1 with rfl | rfl | rfl <;> rcases he2 with rfl | rfl | rfl <;>
      first
      | exact he rfl
      | (have hc := congrArg lastChar h
         rw [lastChar_append _ _ (by decide), lastChar_append _ _ (by decide)]
           at hc
         exact absurd hc (by decide))

/-- Every registered recipe has one of the three known extensions. -/
theorem ext_of_LANG_CONFIG (language : String) (cfg : LangCfg)
    (h : LANG_CONFIG language = some cfg) :
    cfg.ext = ".py" ∨ cfg.ext = ".js" ∨ cfg.ext = ".cpp" := by
  unfold LANG_CONFIG at h
  split at h <;> simp_all <;> subst h <;> simp

/-! ### Compile-artifact lemmas -/

theorem outputPaths_skip (a : String) (rest : List String) (h : a ≠ "-o") :
    outputPaths (a :: rest) = outputPaths rest := by
  conv_lhs => unfold outputPaths
  split
  · next heq => exact absurd (List.cons.inj heq).1 h
  · next heq => rw [(List.cons.inj heq).2]
  · next heq => exact absurd heq (List.cons_ne_nil a rest)

theorem mount_path_ne_flag (f : String) : ("/home/runner/" ++ f) ≠ "-o" := by
  intro h
  have hlen : ("/home/runner/").length + f.length = ("-o").length := by
    rw [← String.length_append, h]
  rw [show ("/home/runner/").length = 13 from rfl,
      show ("-o").length = 2 from rfl] at hlen
  omega

/-- Whatever the staged basename is, the g++ recipe's only artifact lands
at sandbox/a.out on the host. -/
theorem hostArtifacts_gpp (f : String) :
    hostArtifacts ["g++", "/home/runner/" ++ f, "-o", "/home/runner/a.out"]
      = ["sandbox/a.out"] := by
  unfold hostArtifacts
  rw [outputPaths_skip _ _ (by decide),
      outputPaths_skip _ _ (mount_path_ne_flag f)]
  rfl

theorem staged_cpp_ne_aout (uuid : String) :
    ("sandbox/" ++ uuid ++ ".cpp") ≠ "sandbox/a.out" := by
  intro h
  have hc := congrArg lastChar h
  rw [lastChar_append _ _ (by decide)] at hc
  exact absurd hc (by decide)

/-! ### Claim theorems -/

/-- C1: for every supported language, after `run_in_sandbox` returns —
whether the run succeeded, the compile step exited non-zero, the run
exited non-zero, a timeout occurred, or the isolation invocation itself
raised an exception — the staged source file written for that request no
longer exists. -/
theorem staged_file_removed_on_all_paths
    (cwd code language uuid : String) (cfg : LangCfg) (env : ExecEnv)
    (fs : FS) (hl : LANG_CONFIG language = some cfg)
    (hw : env.writeOutcome = .ok) :
    fsExists (run_in_sandbox cwd code language uuid env fs).fs
      ("sandbox/" ++ uuid ++ cfg.ext) = false := by
  unfold run_in_sandbox
  rw [hl, hw]
  cases hcc : cfg.compiler_cmd with
  | none =>
      cases hro : env.runOutcome <;>
        simp [hcc, runPhase, hro, fsExists_removeIfExists_self]
  | some cc =>
      cases hco : env.compileOutcome with
      | completed rc o e =>
          by_cases hrc : rc = 0 <;>
            cases hro : env.runOutcome <;>
              simp [hcc, hco, runPhase, hro, hrc,
                fsExists_removeIfExists_self]
      | timedOut => simp [hcc, hco, fsExists_removeIfExists_self]
      | raised => simp [hcc, hco, fsExists_removeIfExists_self]

/-- Witness for C1: a successful python run at concrete inputs. -/
theorem staged_file_removed_on_all_paths_witness :
    fsExists (run_in_sandbox "/w" "print(1)" "python" "u1"
      ⟨.ok, .completed 0 "" "", .completed 0 "hi" ""⟩ []).fs
      ("sandbox/" ++ "u1" ++ ".py") = false :=
  staged_file_removed_on_all_paths "/w" "print(1)" "python" "u1"
    { ext := ".py", runCmd := fun f => ["python3", "/home/runner/" ++ f] }
    ⟨.ok, .completed 0 "" "", .completed 0 "hi" ""⟩ [] rfl rfl

/-- C3: for every supported language, a wall-clock timeout of the compile
step, or of the run step when the compile step (if any) succeeded, makes
`run_in_sandbox` return stdout equal to the empty string and stderr
exactly equal to the sentinel string, without any exception escaping to
the caller. -/
theorem timeout_yields_sentinel
    (cwd code language uuid : String) (cfg : LangCfg) (env : ExecEnv)
    (fs : FS) (hl : LANG_CONFIG language = some cfg)
    (hw : env.writeOutcome = .ok)
    (ht : (∃ cc, cfg.compiler_cmd = some cc ∧
             env.compileOutcome = .timedOut) ∨
          (env.runOutcome = .timedOut ∧
            (cfg.compiler_cmd = none ∨
              ∃ o e, env.compileOutcome = .completed 0 o e))) :
    (run_in_sandbox cwd code language uuid env fs).result
      = .ok ("", "Execution timed out") := by
  unfold run_in_sandbox
  rw [hl, hw]
  rcases ht with ⟨cc, hcc, hco⟩ | ⟨hro, hcomp⟩
  · simp [hcc, hco]
  · rcases hcomp with hcc | ⟨o, e, hco⟩
    · simp [hcc, runPhase, hro]
    · cases hcc : cfg.compiler_cmd with
      | none => simp [hcc, runPhase, hro]
      | some cc => simp [hcc, hco, runPhase, hro]

/-- Witness for C3: a javascript infinite loop at concrete inputs. -/
theorem timeout_yields_sentinel_witness :
    (run_in_sandbox "/w" "while(true)\x7b\x7d" "javascript" "u2"
      ⟨.ok, .completed 0 "" "", .timedOut⟩ []).result
      = .ok ("", "Execution timed out") :=
  timeout_yields_sentinel "/w" "while(true)\x7b\x7d" "javascript" "u2"
    { ext := ".js", runCmd := fun f => ["node", "/home/runner/" ++ f] }
    ⟨.ok, .completed 0 "" "", .timedOut⟩ [] rfl rfl
    (Or.inr ⟨rfl, Or.inl rfl⟩)

/-- C4: for every language identifier not present in the registry,
`run_in_sandbox` returns immediately with empty stdout and an error
message naming the unsupported language, writes no file, performs no
invocation, and the result does not depend on the submitted code. -/
theorem unsupported_language_immediate
    (cwd code language uuid : String) (env : ExecEnv) (fs : FS)
    (hl : LANG_CONFIG language = none) :
    run_in_sandbox cwd code language uuid env fs
      = ⟨.ok ("", "Unsupported language: " ++ language), fs, []⟩ := by
  unfold run_in_sandbox
  rw [hl]

/-- Witness for C4 at a concrete unsupported language. -/
theorem unsupported_language_immediate_witness :
    run_in_sandbox "/w" "puts 1" "ruby" "u3"
      ⟨.ok, .completed 0 "" "", .completed 0 "" ""⟩ []
      = ⟨.ok ("", "Unsupported language: " ++ "ruby"), [], []⟩ :=
  unsupported_language_immediate "/w" "puts 1" "ruby" "u3"
    ⟨.ok, .completed 0 "" "", .completed 0 "" ""⟩ [] rfl

/-- C5: for every language whose recipe defines a compile step, a
non-zero compile exit makes `run_in_sandbox` return empty stdout and the
captured compiler stderr, perform exactly the compile invocation (the run
step is never invoked), and still remove the staged file. -/
theorem compile_failure_short_circuits
    (cwd code language uuid : String) (cfg : LangCfg)
    (cc : String → List String) (rc : Int) (co ce : String)
    (env : ExecEnv) (fs : FS)
    (hl : LANG_CONFIG language = some cfg)
    (hcc : cfg.compiler_cmd = some cc)
    (hw : env.writeOutcome = .ok)
    (hco : env.compileOutcome = .completed rc co ce)
    (hrc : rc ≠ 0) :
    (run_in_sandbox cwd code language uuid env fs).result = .ok ("", ce) ∧
    (run_in_sandbox cwd code language uuid env fs).invocations
      = [dockerArgs cwd
          (cc (basename ("sandbox/" ++ uuid ++ cfg.ext)))] ∧
    fsExists (run_in_sandbox cwd code language uuid env fs).fs
      ("sandbox/" ++ uuid ++ cfg.ext) = false := by
  unfold run_in_sandbox
  rw [hl, hw]
  simp [hcc, hco, hrc, fsExists_removeIfExists_self]

/-- Witness for C5: a cpp compile failure at concrete inputs. -/
theorem compile_failure_short_circuits_witness :
    (run_in_sandbox "/w" "int main(" "cpp" "u4"
      ⟨.ok, .completed 1 "" "err: expected expression",
        .completed 0 "" ""⟩ []).result
      = .ok ("", "err: expected expression") ∧
    (run_in_sandbox "/w" "int main(" "cpp" "u4"
      ⟨.ok, .completed 1 "" "err: expected expression",
        .completed 0 "" ""⟩ []).invocations
      = [dockerArgs "/w"
          ((fun f => ["g++", "/home/runner/" ++ f, "-o",
            "/home/runner/a.out"])
            (basename ("sandbox/" ++ "u4" ++ ".cpp")))] ∧
    fsExists (run_in_sandbox "/w" "int main(" "cpp" "u4"
      ⟨.ok, .completed 1 "" "err: expected expression",
        .completed 0 "" ""⟩ []).fs
      ("sandbox/" ++ "u4" ++ ".cpp") = false :=
  compile_failure_short_circuits "/w" "int main(" "cpp" "u4"
    { ext := ".cpp"
      compiler_cmd := some fun f =>
        ["g++", "/home/runner/" ++ f, "-o", "/home/runner/a.out"]
      runCmd := fun _ => ["/home/runner/a.out"] }
    (fun f => ["g++", "/home/runner/" ++ f, "-o", "/home/runner/a.out"])
    1 "" "err: expected expression"
    ⟨.ok, .completed 1 "" "err: expected expression", .completed 0 "" ""⟩
    [] rfl rfl rfl rfl (by decide)

/-- C9: a non-zero run exit code is not a distinct error kind: whenever
the run step completes with any exit code, `run_in_sandbox` returns the
captured stdout and stderr unchanged. -/
theorem run_streams_passthrough
    (cwd code language uuid : String) (cfg : LangCfg) (rc : Int)
    (out err : String) (env : ExecEnv) (fs : FS)
    (hl : LANG_CONFIG language = some cfg)
    (hw : env.writeOutcome = .ok)
    (hcomp : cfg.compiler_cmd = none ∨
      ∃ o e, env.compileOutcome = .completed 0 o e)
    (hro : env.runOutcome = .completed rc out err) :
    (run_in_sandbox cwd code language uuid env fs).result
      = .ok (out, err) := by
  unfold run_in_sandbox
  rw [hl, hw]
  rcases hcomp with hcc | ⟨o, e, hco⟩
  · simp [hcc, runPhase, hro]
  · cases hcc : cfg.compiler_cmd with
    | none => simp [hcc, runPhase, hro]
    | some cc => simp [hcc, hco, runPhase, hro]

/-- Witness for C9: a python program that writes only to stderr and
exits non-zero returns empty stdout and the exact stderr text. -/
theorem run_streams_passthrough_witness :
    (run_in_sandbox "/w" "import sys; sys.exit(2)" "python" "u5"
      ⟨.ok, .completed 0 "" "", .completed 2 "" "boom"⟩ []).result
      = .ok ("", "boom") :=
  run_streams_passthrough "/w" "import sys; sys.exit(2)" "python" "u5"
    { ext := ".py", runCmd := fun f => ["python3", "/home/runner/" ++ f] }
    2 "" "boom"
    ⟨.ok, .completed 0 "" "", .completed 2 "" "boom"⟩ []
    rfl rfl (Or.inl rfl) rfl

/-- Counterexample to C2 as stated: after a completed cpp execution at
concrete inputs (compile exits 0, run exits 0), the compiled binary
sandbox/a.out still exists in the staging directory, so releasing the
workspace does not remove every compiler-produced artifact. -/
theorem cpp_binary_left_behind_cex :
    fsExists (run_in_sandbox "/w" "int main()\x7b\x7d" "cpp" "uu"
      ⟨.ok, .completed 0 "" "", .completed 0 "" ""⟩ []).fs
      "sandbox/a.out" = true := by decide

/-- C2 amended: after a cpp execution completes, the staged .cpp file no
longer exists, but the compiled binary sandbox/a.out produced by the
compile step remains in the staging directory — only the staged source
file is removed. -/
theorem cpp_release_staged_source_only
    (cwd code uuid o e : String) (rc : Int) (out err : String)
    (env : ExecEnv) (fs : FS)
    (hw : env.writeOutcome = .ok)
    (hco : env.compileOutcome = .completed 0 o e)
    (hro : env.runOutcome = .completed rc out err) :
    fsExists (run_in_sandbox cwd code "cpp" uuid env fs).fs
      ("sandbox/" ++ uuid ++ ".cpp") = false ∧
    fsExists (run_in_sandbox cwd code "cpp" uuid env fs).fs
      "sandbox/a.out" = true := by
  unfold run_in_sandbox
  have hcfg : LANG_CONFIG "cpp" = some
      { ext := ".cpp"
        compiler_cmd := some fun f =>
          ["g++", "/home/runner/" ++ f, "-o", "/home/runner/a.out"]
        runCmd := fun _ => ["/home/runner/a.out"] } := rfl
  rw [hcfg, hw, hco]
  simp only [runPhase, hro, hostArtifacts_gpp, writeAll, List.foldl]
  constructor
  · simp [fsExists_removeIfExists_self]
  · simp [fsExists_removeIfExists_ne _ _ _
      (Ne.symm (staged_cpp_ne_aout uuid)), fsExists_fsWrite_self]

/-- Witness for C2 amended at concrete inputs. -/
theorem cpp_release_staged_source_only_witness :
    fsExists (run_in_sandbox "/w" "int main()\x7b\x7d" "cpp" "uu"
      ⟨.ok, .completed 0 "" "", .completed 0 "" ""⟩ []).fs
      ("sandbox/" ++ "uu" ++ ".cpp") = false ∧
    fsExists (run_in_sandbox "/w" "int main()\x7b\x7d" "cpp" "uu"
      ⟨.ok, .completed 0 "" "", .completed 0 "" ""⟩ []).fs
      "sandbox/a.out" = true :=
  cpp_release_staged_source_only "/w" "int main()\x7b\x7d" "uu" "" ""
    0 "" "" ⟨.ok, .completed 0 "" "", .completed 0 "" ""⟩ [] rfl rfl rfl

/-- Counterexample to C6 as stated: two distinct concurrent cpp requests
with distinct random identifiers both address the compiler-artifact path
sandbox/a.out, so their path sets are not disjoint. -/
theorem request_paths_not_disjoint_cex :
    "aaaa" ≠ "bbbb" ∧
    ¬ List.Disjoint (requestPaths "cpp" "aaaa")
        (requestPaths "cpp" "bbbb") := by
  refine ⟨by decide, fun h => ?_⟩
  exact h (a := "sandbox/a.out") (by decide) (by decide)

/-- C6 amended: staged source file paths are namespaced by the request
identifiers — two requests with distinct identifiers always stage their
sources at distinct paths, whatever their languages — but compiler
artifact paths are not namespaced: every cpp request addresses the same
artifact path sandbox/a.out. -/
theorem staged_paths_namespaced
    (l1 l2 u1 u2 : String) (c1 c2 : LangCfg)
    (h1 : LANG_CONFIG l1 = some c1) (h2 : LANG_CONFIG l2 = some c2)
    (hu : u1 ≠ u2) :
    ("sandbox/" ++ u1 ++ c1.ext) ≠ ("sandbox/" ++ u2 ++ c2.ext) ∧
    ∀ u : String, "sandbox/a.out" ∈ requestPaths "cpp" u := by
  constructor
  · exact staged_ne_of_uuid_ne u1 u2 c1.ext c2.ext
      (ext_of_LANG_CONFIG l1 c1 h1) (ext_of_LANG_CONFIG l2 c2 h2) hu
  · intro u
    have hcfg : LANG_CONFIG "cpp" = some
        { ext := ".cpp"
          compiler_cmd := some fun f =>
            ["g++", "/home/runner/" ++ f, "-o", "/home/runner/a.out"]
          runCmd := fun _ => ["/home/runner/a.out"] } := rfl
    unfold requestPaths
    rw [hcfg]
    simp [hostArtifacts_gpp]

/-- Witness for C6 amended: a python and a cpp request with distinct
identifiers. -/
theorem staged_paths_namespaced_witness :
    ("sandbox/" ++ "aa" ++ ".py") ≠ ("sandbox/" ++ "bb" ++ ".cpp") ∧
    ∀ u : String, "sandbox/a.out" ∈ requestPaths "cpp" u :=
  staged_paths_namespaced "python" "cpp" "aa" "bb"
    { ext := ".py", runCmd := fun f => ["python3", "/home/runner/" ++ f] }
    { ext := ".cpp"
      compiler_cmd := some fun f =>
        ["g++", "/home/runner/" ++ f, "-o", "/home/runner/a.out"]
      runCmd := fun _ => ["/home/runner/a.out"] }
    rfl rfl (by decide)

/-- Counterexample to C7 as stated: when the write to the staged file
fails after the file has been created (disk full at flush), the IOError
does surface, but a partial staged file is left behind in the staging
root. -/
theorem partial_staged_file_left_cex :
    (run_in_sandbox "/w" "print(1)" "python" "u7"
      ⟨.writeFails "", .completed 0 "" "", .completed 0 "" ""⟩ []).result
      = .error () ∧
    fsExists (run_in_sandbox "/w" "print(1)" "python" "u7"
      ⟨.writeFails "", .completed 0 "" "", .completed 0 "" ""⟩ []).fs
      "sandbox/u7.py" = true :=
  ⟨rfl, by decide⟩

/-- C7 amended: if writing the submitted source code to the staging file
fails after the file was created, an IOError is surfaced to the caller
and execution is aborted with no invocation performed, but the partially
written staged file is left behind in the staging root. -/
theorem write_failure_aborts
    (cwd code language uuid w : String) (cfg : LangCfg) (env : ExecEnv)
    (fs : FS) (hl : LANG_CONFIG language = some cfg)
    (hw : env.writeOutcome = .writeFails w) :
    run_in_sandbox cwd code language uuid env fs
      = ⟨.error (), fsWrite fs ("sandbox/" ++ uuid ++ cfg.ext) w, []⟩ := by
  unfold run_in_sandbox
  rw [hl, hw]

/-- Witness for C7 amended at concrete inputs. -/
theorem write_failure_aborts_witness :
    run_in_sandbox "/w" "print(1)" "python" "u7"
      ⟨.writeFails "pr", .completed 0 "" "", .completed 0 "" ""⟩ []
      = ⟨.error (), fsWrite [] ("sandbox/" ++ "u7" ++ ".py") "pr", []⟩ :=
  write_failure_aborts "/w" "print(1)" "python" "u7" "pr"
    { ext := ".py", runCmd := fun f => ["python3", "/home/runner/" ++ f] }
    ⟨.writeFails "pr", .completed 0 "" "", .completed 0 "" ""⟩ [] rfl rfl

/-- Counterexample to C8 as stated: for the unparseable downstream
response "RAW" the feedback fallback does contain the raw text, but the
annotate fallback does not — it keeps only empty issues and the submitted
code. -/
theorem annotate_fallback_drops_raw_cex :
    mentions "RAW" (feedback_postprocess "RAW" none) = true ∧
    mentions "RAW" (annotate_postprocess "x" "RAW" none) = false :=
  ⟨by decide, by decide⟩

/-- C8 amended: when the downstream response fails to parse, the feedback
flow returns a degraded structured result containing the raw response
text, while the annotate flow returns empty issues plus the original
submitted code, discarding the raw response. -/
theorem degraded_fallback_contents (code response : String) :
    mentions response (feedback_postprocess response none) = true ∧
    annotate_postprocess code response none
      = Json.obj [("issues", Json.arr []),
                  ("improved_code", Json.str code)] := by
  refine ⟨?_, rfl⟩
  simp [feedback_postprocess, mentions, mentionsF]

/-- C10: the structured-output fallback triggers only when parsing
raises: every successfully parsed value — whatever its shape — is
returned verbatim by both the feedback and the annotate endpoint, and
the fixed fallback results arise exactly in the parse-failure case. -/
theorem parsed_json_returned_verbatim
    (code response : String) (v : Json) :
    feedback_postprocess response (some v) = v ∧
    annotate_postprocess code response (some v) = v ∧
    feedback_postprocess response none
      = Json.obj [("analysis", Json.str response),
                  ("improved_code", Json.str "")] ∧
    annotate_postprocess code response none
      = Json.obj [("issues", Json.arr []),
                  ("improved_code", Json.str code)] :=
  ⟨rfl, rfl, rfl, rfl⟩

end LintX
